import Mathlib

/-!
Verification of the cbhands service lifecycle manager
(`src/cbhands/manager.py`, class `ServiceManager`) against its
natural-language specification.

The manager is embedded shallowly:

* The OS environment sampled by the probes (process table, TCP
  port-liveness, result of the netstat scan, the clock, which spawns and
  terminations fail) is a `World`, held fixed during one operation — each
  manager operation samples the world through the same probe calls the
  Python code makes.
* The manager's mutable footprint (PID files, log files, the in-memory
  `self.state` mapping, the last contents written to the state file, and a
  log of every `subprocess.Popen` call) is an `MState` threaded through the
  operations, which in Python mutate `self` and the filesystem.
* Python dicts keyed by service name become association lists; Python
  string operations (`in`, `endswith`, `split`, `join`) become the
  corresponding executable operations on Lean `String`.
-/

namespace Cbhands

/-- Python's substring test `sub in s`: `sub` occurs contiguously in `s`
(true for the empty `sub`, as in Python). -/
def strContains (s sub : String) : Bool := decide (sub.data <:+: s.data)

/-- Python's `s.endswith(t)`: `t` is a suffix of `s`. -/
def strEndsWith (s t : String) : Bool := decide (t.data <:+ s.data)

/-- Worker for `pySplit`: accumulate the current word (reversed) while
scanning the characters. -/
def pySplitAux : List Char → List Char → List String
  | [], acc => if acc.isEmpty then [] else [String.mk acc.reverse]
  | c :: rest, acc =>
    if c.isWhitespace then
      if acc.isEmpty then pySplitAux rest []
      else String.mk acc.reverse :: pySplitAux rest []
    else pySplitAux rest (c :: acc)

/-- Python's `s.split()` with no argument: split on runs of whitespace,
no empty tokens, leading/trailing whitespace ignored. -/
def pySplit (s : String) : List String := pySplitAux s.data []

/-- Python's `s.split()[-1]` modulo the final indexing: the last
whitespace-separated token, if any. -/
def lastToken (s : String) : Option String := (pySplit s).getLast?

/-- One service's configuration dictionary as returned by
`Config.get_service` (`src/cbhands/config.py:48`): the per-service mapping
from the `services:` section of the YAML file.  The `port` is optional
(`service_config.get('port')`). -/
structure ServiceConfig where
  name : String
  command : String
  port : Option Nat
  working_directory : String
  description : String
  env : List (String × String)
deriving Repr, DecidableEq

/-- The services section of the configuration: an insertion-ordered mapping
from service name to its config (`Config.get_services`). -/
structure Config where
  services : List (String × ServiceConfig)
deriving Repr, DecidableEq

/-- `Config.get_service(service_name)`: lookup in the services mapping. -/
def getService (cfg : Config) (n : String) : Option ServiceConfig :=
  (cfg.services.find? (fun p => p.1 == n)).map (fun p => p.2)

/-- One entry of the OS process table as psutil exposes it to the manager:
a pid and the command-line token list (`proc.info['cmdline']`). -/
structure Proc where
  pid : Nat
  cmdline : List String
deriving Repr, DecidableEq

/-- A record in the manager's persisted state mapping.  `start_service`
writes `pid`, `started_at`, `status`, `config`; `stop_service` adds
`stopped_at` (hence the `Option`). -/
structure SRecord where
  pid : Nat
  started_at : Nat
  status : String
  stopped_at : Option Nat
  config : ServiceConfig
deriving Repr, DecidableEq

/-- One `subprocess.Popen` invocation made by `start_service`: the service
it was made for, the argv actually passed, and the working directory. -/
structure SpawnCall where
  service : String
  argv : List String
  cwd : String
deriving Repr, DecidableEq

/-- The OS environment as the manager's probes sample it during one
operation.

* `procs` — the process table (`psutil.pid_exists` / `psutil.Process` /
  `psutil.process_iter`).
* `portOpen p` — the result of `_is_port_in_use(p)` (manager.py:103): the
  short-timeout TCP connect to `localhost:p`; any socket error already
  yields `false` inside that method.
* `netstatPid p` — the pid the netstat branch of `_get_service_pid`
  (manager.py:162-177) extracts for port `p`: the external `netstat -tlnp`
  output and the line-parsing loop over it are abstracted as this single
  environment-provided result (`none` when no line yields a pid, e.g. the
  command failed or every matching line's owner field was unreadable).
* `now` — `time.time()` (epoch seconds, as a natural number).
* `freshPid k` — the pid the OS gives the `k`-th `Popen` call of this run.
* `spawnError n` — when `some e`, `subprocess.Popen` for service `n`
  raises with text `e` (missing executable, bad working directory, ...).
* `termError p` — when `some e`, terminating pid `p` raises something
  other than `psutil.NoSuchProcess` (e.g. `AccessDenied`, or the final
  `wait` timing out) with text `e`. -/
structure World where
  procs : List Proc
  portOpen : Nat → Bool
  netstatPid : Nat → Option Nat
  now : Nat
  freshPid : Nat → Nat
  spawnError : String → Option String
  termError : Nat → Option String

/-- `psutil.pid_exists pid` over the sampled process table. -/
def pidExists (w : World) (pid : Nat) : Bool :=
  w.procs.any (fun p => p.pid == pid)

/-- `psutil.Process(pid).cmdline()` over the sampled process table. -/
def procCmdline (w : World) (pid : Nat) : Option (List String) :=
  (w.procs.find? (fun p => p.pid == pid)).map (fun p => p.cmdline)

/-- Association-list lookup (Python `d.get(k)` / `d[k]`). -/
def alookup {α : Type} (l : List (String × α)) (k : String) : Option α :=
  (l.find? (fun p => p.1 == k)).map (fun p => p.2)

/-- Association-list update (Python `d[k] = v`): replace the binding if the
key is present, else append it. -/
def aset {α : Type} : List (String × α) → String → α → List (String × α)
  | [], k, v => [(k, v)]
  | (k', v') :: t, k, v =>
    if k' == k then (k, v) :: t else (k', v') :: aset t k v

/-- Association-list removal (Python `del d[k]` / `os.remove`). -/
def aerase {α : Type} : List (String × α) → String → List (String × α)
  | [], _ => []
  | (k', v') :: t, k =>
    if k' == k then aerase t k else (k', v') :: aerase t k

/-- The manager's mutable footprint.

* `pidFiles` — per-service PID file contents under the pid directory.
* `logFiles` — per-service log file lines (each stored line keeps its
  trailing newline, as `readlines` returns them).
* `state` — the in-memory `self.state` mapping.
* `savedState` — the contents last written to the state file by
  `_save_state` (`none` if never written in the modelled run).
* `spawnCalls` — every `subprocess.Popen` call made so far. -/
structure MState where
  pidFiles : List (String × String)
  logFiles : List (String × List String)
  state : List (String × SRecord)
  savedState : Option (List (String × SRecord))
  spawnCalls : List SpawnCall
deriving Repr, DecidableEq

/-- Python `int(content.strip())` on a PID file: strip surrounding
whitespace, then parse a nonempty run of decimal digits.  Pids the manager
writes are plain decimals; a file holding anything else (garbage, or a
sign the manager never writes) raises `ValueError`, modelled as `none`. -/
def parsePid (content : String) : Option Nat :=
  let t := ((content.data.dropWhile Char.isWhitespace).reverse.dropWhile
    Char.isWhitespace).reverse
  if !t.isEmpty && t.all Char.isDigit then
    some (t.foldl (fun acc c => acc * 10 + (c.toNat - 48)) 0)
  else none

/-- `_check_child_processes(service_name, port)` (manager.py:114-137): the
last-resort broad scan.  Python's `if not port` covers both a missing port
and port `0` (falsy).  Only when the port is in use does it iterate the
process table looking for a command line that contains the service name, or
contains `"serve"`, or contains both `"node"` and the decimal port
(Python's `A or B or C and D` associates as `A or B or (C and D)`).
Processes with an empty command line are skipped (`if proc.info['cmdline']`),
as are unreadable ones. -/
def checkChildProcesses (w : World) (service_name : String) (port : Option Nat) : Bool :=
  match port with
  | none => false
  | some p =>
    if p == 0 then false
    else if w.portOpen p then
      w.procs.any (fun proc =>
        !proc.cmdline.isEmpty &&
          (let cmdline := String.intercalate " " proc.cmdline
           strContains cmdline service_name || strContains cmdline "serve" ||
             (strContains cmdline "node" && strContains cmdline (toString p))))
    else false

/-- The command-line match of `_is_service_running`'s PID-file branch
(manager.py:89-93): the joined command line contains the service's `name`,
or contains the configured command, or ends with the command's last token.
The disjunction short-circuits as in Python; the `none` arm of the last
disjunct (a command that is entirely whitespace, where Python's
`split()[-1]` would raise `IndexError`) is unreachable for any command
containing a non-space character, since an empty command makes the second
disjunct true. -/
def cmdMatchesConfig (sc : ServiceConfig) (cmd : String) : Bool :=
  strContains cmd sc.name || strContains cmd sc.command ||
    (match lastToken sc.command with
     | some t => strEndsWith cmd t
     | none => false)

/-- `_is_service_running(service_name)` (manager.py:65-101), the status
decision algorithm: (1) unknown service → false; (2) a declared, truthy
port that is in use → true; (3) no PID file → false; (4) PID file whose
pid is alive and whose command line matches → true; otherwise (pid dead,
command mismatch, or a `ValueError`/`NoSuchProcess`/`AccessDenied` while
inspecting) fall through to `_check_child_processes`. -/
def isServiceRunning (w : World) (cfg : Config) (ms : MState) (service_name : String) : Bool :=
  match getService cfg service_name with
  | none => false
  | some sc =>
    let portLive := match sc.port with
      | some p => p != 0 && w.portOpen p
      | none => false
    if portLive then true
    else
      match alookup ms.pidFiles service_name with
      | none => false
      | some content =>
        match parsePid content with
        | none => checkChildProcesses w service_name sc.port
        | some pid =>
          if pidExists w pid then
            match procCmdline w pid with
            | some cl =>
              if cmdMatchesConfig sc (String.intercalate " " cl) then true
              else checkChildProcesses w service_name sc.port
            | none => checkChildProcesses w service_name sc.port
          else checkChildProcesses w service_name sc.port

/-- The process-table fallback of `_get_service_pid` (manager.py:180-193):
first process whose command line contains the service name, or `"serve"`
and `"3000"`, or `"node"` and `"dist/index.js"`, or `"main"` and
(`"lobby"` or `"dealer"`). -/
def broadScanPid (w : World) (service_name : String) : Option Nat :=
  (w.procs.find? (fun proc =>
    !proc.cmdline.isEmpty &&
      (let c := String.intercalate " " proc.cmdline
       strContains c service_name ||
         (strContains c "serve" && strContains c "3000") ||
         (strContains c "node" && strContains c "dist/index.js") ||
         (strContains c "main" && (strContains c "lobby" || strContains c "dealer"))))).map
    (fun p => p.pid)

/-- `_get_service_pid(service_name)` (manager.py:139-195): `none` if the
status algorithm says stopped; else the PID-file pid when it parses and is
alive; else, when a truthy port is configured, the netstat result for that
port, falling back to the broad process scan. -/
def getServicePid (w : World) (cfg : Config) (ms : MState) (n : String) : Option Nat :=
  if !(isServiceRunning w cfg ms n) then none
  else
    match getService cfg n with
    | none => none
    | some sc =>
      let fromFile : Option Nat :=
        match alookup ms.pidFiles n with
        | none => none
        | some content =>
          match parsePid content with
          | none => none
          | some pid => if pidExists w pid then some pid else none
      match fromFile with
      | some pid => some pid
      | none =>
        match sc.port with
        | none => none
        | some p =>
          if p == 0 then none
          else
            match w.netstatPid p with
            | some pid => some pid
            | none => broadScanPid w n

/-- The dictionary `get_service_status` returns (manager.py:329-364),
flattened into one structure: the `not_found` shape sets `message` and
leaves the rest empty; the normal shape sets `pid`, `port`, `description`
and, when running and a record exists, `started_at` and `uptime`. -/
structure StatusInfo where
  name : String
  status : String
  message : Option String
  pid : Option Nat
  port : Option Nat
  description : Option String
  started_at : Option Nat
  uptime : Option Nat
deriving Repr, DecidableEq

/-- `get_service_status(service_name)` (manager.py:329-364).  `uptime` is
`time.time() - started_at` (truncated subtraction on `Nat`, exact under a
monotone clock). -/
def getServiceStatus (w : World) (cfg : Config) (ms : MState) (n : String) : StatusInfo :=
  match getService cfg n with
  | none =>
    { name := n, status := "not_found",
      message := some "Service not found in configuration",
      pid := none, port := none, description := none,
      started_at := none, uptime := none }
  | some sc =>
    let running := isServiceRunning w cfg ms n
    let base : StatusInfo :=
      { name := n, status := if running then "running" else "stopped",
        message := none, pid := getServicePid w cfg ms n, port := sc.port,
        description := some sc.description, started_at := none, uptime := none }
    if running then
      match alookup ms.state n with
      | some r => { base with started_at := some r.started_at, uptime := some (w.now - r.started_at) }
      | none => base
    else base

/-- The `(success, message)` pair a lifecycle operation returns, together
with the manager footprint it leaves behind. -/
structure OpResult where
  ok : Bool
  msg : String
  ms : MState
deriving Repr, DecidableEq

/-- The command preparation of `start_service` (manager.py:215-220): shell
wrapping when the command contains `&&` or `|`, else Python `split()`. -/
def prepareCmd (command : String) : List String :=
  if strContains command "&&" || strContains command "|" then
    ["sh", "-c", command]
  else
    pySplit command

/-- `open(log_file, 'a')`: create the (empty) log file when absent, keep
its lines when present. -/
def ensureLog (l : List (String × List String)) (n : String) : List (String × List String) :=
  match alookup l n with
  | some _ => l
  | none => aset l n []

/-- `start_service(service_name)` (manager.py:197-250): unknown name and
already-running are rejected before any side effect; otherwise the log
file is opened (append) and `Popen` is called — a raising `Popen` is the
generic `except` path; on success the pid is written to the PID file, a
fresh `running` record is stored and the state is saved. -/
def startService (w : World) (cfg : Config) (ms : MState) (n : String) : OpResult :=
  match getService cfg n with
  | none => ⟨false, "Service '" ++ n ++ "' not found in configuration", ms⟩
  | some sc =>
    if isServiceRunning w cfg ms n then
      ⟨false, "Service '" ++ n ++ "' is already running", ms⟩
    else
      let ms1 := { ms with logFiles := ensureLog ms.logFiles n }
      let call : SpawnCall := ⟨n, prepareCmd sc.command, sc.working_directory⟩
      let ms2 := { ms1 with spawnCalls := ms1.spawnCalls ++ [call] }
      match w.spawnError n with
      | some e => ⟨false, "Failed to start service '" ++ n ++ "': " ++ e, ms2⟩
      | none =>
        let pid := w.freshPid ms.spawnCalls.length
        let ms3 := { ms2 with pidFiles := aset ms2.pidFiles n (toString pid) }
        let newRec : SRecord := ⟨pid, w.now, "running", none, sc⟩
        let st := aset ms3.state n newRec
        ⟨true, "Service '" ++ n ++ "' started successfully (PID: " ++ toString pid ++ ")",
          { ms3 with state := st, savedState := some st }⟩

/-- `stop_service(service_name)` (manager.py:252-303): not-running is
rejected first; a missing or falsy resolved pid gives the could-not-find
failure; `psutil.Process(pid)` on a dead pid raises `NoSuchProcess`, whose
handler removes the PID file and returns success; a failing
terminate/kill is the generic `except` path; otherwise the PID file is
removed and, when a record exists, it is marked stopped with a stop
timestamp and the state is saved. -/
def stopService (w : World) (cfg : Config) (ms : MState) (n : String) : OpResult :=
  if !(isServiceRunning w cfg ms n) then
    ⟨false, "Service '" ++ n ++ "' is not running", ms⟩
  else
    match getServicePid w cfg ms n with
    | none => ⟨false, "Could not find PID for service '" ++ n ++ "'", ms⟩
    | some pid =>
      if pid == 0 then ⟨false, "Could not find PID for service '" ++ n ++ "'", ms⟩
      else if pidExists w pid then
        match w.termError pid with
        | some e => ⟨false, "Failed to stop service '" ++ n ++ "': " ++ e, ms⟩
        | none =>
          let ms1 := { ms with pidFiles := aerase ms.pidFiles n }
          match alookup ms1.state n with
          | some r =>
            let st := aset ms1.state n { r with status := "stopped", stopped_at := some w.now }
            ⟨true, "Service '" ++ n ++ "' stopped successfully",
              { ms1 with state := st, savedState := some st }⟩
          | none => ⟨true, "Service '" ++ n ++ "' stopped successfully", ms1⟩
      else
        ⟨true, "Service '" ++ n ++ "' was not running",
          { ms with pidFiles := aerase ms.pidFiles n }⟩

/-- `restart_service(service_name)` (manager.py:305-327): stop first; a
stop failure whose message lacks the substring `"not running"` aborts;
otherwise (the `time.sleep(1)` pause elided) start, and wrap its outcome. -/
def restartService (w : World) (cfg : Config) (ms : MState) (n : String) : OpResult :=
  let s := stopService w cfg ms n
  if !s.ok && !(strContains s.msg "not running") then
    ⟨false, "Failed to stop service before restart: " ++ s.msg, s.ms⟩
  else
    let st := startService w cfg s.ms n
    if !st.ok then
      ⟨false, "Failed to start service after restart: " ++ st.msg, st.ms⟩
    else
      ⟨true, "Service '" ++ n ++ "' restarted successfully", st.ms⟩

/-- `get_service_logs(service_name, lines)` (manager.py:375-394): missing
file → the no-log-file message; else `''.join(all_lines[-lines:])`, where
Python's slice `[-0:]` is the whole list, and `[-k:]` for `k ≥ 1` is the
last `min(k, N)` elements.  (The generic read-error branch is not
modelled: `logFiles` holds readable contents.) -/
def getServiceLogs (ms : MState) (n : String) (lines : Nat) : String :=
  match alookup ms.logFiles n with
  | none => "No log file found for service '" ++ n ++ "'"
  | some ls =>
    String.join (if lines == 0 then ls else ls.drop (ls.length - lines))

/-- What reading the state file can yield in `_load_state`
(manager.py:39-47): the file is absent; opening/parsing raises (the
`except` path, which logs a warning); or `yaml.safe_load` returns a value —
`none` models YAML null (an empty file), which `or {}` replaces by the
empty mapping. -/
inductive StateFileContent where
  | absent
  | unreadable
  | parsed (v : Option (List (String × SRecord)))
deriving Repr, DecidableEq

/-- `_load_state()` (manager.py:39-47): total — every outcome of reading
the state file yields a mapping, the empty one in all degraded cases. -/
def loadState : StateFileContent → List (String × SRecord)
  | .absent => []
  | .unreadable => []
  | .parsed none => []
  | .parsed (some m) => m

/-- The sequential per-service loop shared by `stop_all_services` and
`start_all_services` (manager.py:406-411, 430-435): run `step` on every
name in order, threading the manager footprint, and split the names into
(succeeded, failed) in iteration order. -/
def batchLoop (step : MState → String → OpResult) :
    MState → List String → MState × List String × List String
  | ms, [] => (ms, [], [])
  | ms, n :: rest =>
    let r := step ms n
    let tail := batchLoop step r.ms rest
    if r.ok then (tail.1, n :: tail.2.1, tail.2.2)
    else (tail.1, tail.2.1, n :: tail.2.2)

/-- `stop_all_services()` (manager.py:396-418). -/
def stopAllServices (w : World) (cfg : Config) (ms : MState) : OpResult :=
  let names := cfg.services.map (fun p => p.1)
  let out := batchLoop (stopService w cfg) ms names
  let ok := out.2.1
  let bad := out.2.2
  if bad.isEmpty then
    ⟨true, "All services stopped successfully: " ++ String.intercalate ", " ok, out.1⟩
  else if !ok.isEmpty then
    ⟨false, "Partially stopped: " ++ String.intercalate ", " ok ++
        ". Failed: " ++ String.intercalate ", " bad, out.1⟩
  else
    ⟨false, "Failed to stop all services: " ++ String.intercalate ", " bad, out.1⟩

/-- `start_all_services()` (manager.py:420-442). -/
def startAllServices (w : World) (cfg : Config) (ms : MState) : OpResult :=
  let names := cfg.services.map (fun p => p.1)
  let out := batchLoop (startService w cfg) ms names
  let ok := out.2.1
  let bad := out.2.2
  if bad.isEmpty then
    ⟨true, "All services started successfully: " ++ String.intercalate ", " ok, out.1⟩
  else if !ok.isEmpty then
    ⟨false, "Partially started: " ++ String.intercalate ", " ok ++
        ". Failed: " ++ String.intercalate ", " bad, out.1⟩
  else
    ⟨false, "Failed to start all services: " ++ String.intercalate ", " bad, out.1⟩

/-! ## Helper lemmas -/

theorem alookup_aset_self {α : Type} (l : List (String × α)) (k : String) (v : α) :
    alookup (aset l k v) k = some v := by
  induction l with
  | nil => simp [alookup, aset]
  | cons h t ih =>
    obtain ⟨k', v'⟩ := h
    by_cases hk : k' == k
    · simp [aset, hk, alookup]
    · simp only [aset, hk, Bool.false_eq_true, if_false]
      simpa [alookup, hk] using ih

theorem alookup_aerase_self {α : Type} (l : List (String × α)) (k : String) :
    alookup (aerase l k) k = none := by
  induction l with
  | nil => simp [alookup, aerase]
  | cons h t ih =>
    obtain ⟨k', v'⟩ := h
    by_cases hk : k' == k
    · simpa [aerase, hk] using ih
    · simp only [aerase, hk, Bool.false_eq_true, if_false]
      simpa [alookup, hk] using ih

/-- A successful broad scan presupposes a nonzero, open port
(`_check_child_processes` returns early otherwise). -/
theorem checkChild_some_true {w : World} {n : String} {p : Nat}
    (h : checkChildProcesses w n (some p) = true) :
    p ≠ 0 ∧ w.portOpen p = true := by
  unfold checkChildProcesses at h
  by_cases h0 : p = 0
  · simp [h0] at h
  · refine ⟨h0, ?_⟩
    by_cases ho : w.portOpen p
    · exact ho
    · simp [h0, ho] at h

/-- The first check of the status algorithm: a nonzero declared port that
is in use makes the service running, whatever else holds. -/
theorem running_of_portOpen {w : World} {cfg : Config} {ms : MState}
    {n : String} {sc : ServiceConfig} {p : Nat}
    (hsc : getService cfg n = some sc) (hp : sc.port = some p)
    (hpz : p ≠ 0) (hopen : w.portOpen p = true) :
    isServiceRunning w cfg ms n = true := by
  unfold isServiceRunning
  rw [hsc]
  simp [hp, hopen, hpz]

/-- A running service is one the registry knows. -/
theorem getService_isSome_of_running {w : World} {cfg : Config} {ms : MState}
    {n : String} (h : isServiceRunning w cfg ms n = true) :
    (getService cfg n).isSome := by
  unfold isServiceRunning at h
  cases hsc : getService cfg n with
  | none => rw [hsc] at h; simp at h
  | some sc => simp

/-- `stop_service` never calls `subprocess.Popen`: every branch leaves the
spawn-call log unchanged. -/
theorem stopService_spawnCalls (w : World) (cfg : Config) (ms : MState) (n : String) :
    (stopService w cfg ms n).ms.spawnCalls = ms.spawnCalls := by
  unfold stopService
  repeat' split
  all_goals try (cases halo : alookup ms.state n)
  all_goals simp_all

/-- The NotRunning failure message always contains the substring
`"not running"` that `restart_service` tests for. -/
theorem notRunning_msg_contains (n : String) :
    strContains ("Service '" ++ n ++ "' is not running") "not running" = true := by
  unfold strContains
  rw [decide_eq_true_eq]
  have h1 : ("Service '" ++ n ++ "' is not running").data
      = "Service '".data ++ (n.data ++ "' is not running".data) := by
    simp [String.data_append]
  rw [h1]
  have h2 : "not running".data <:+ "' is not running".data := by decide
  exact (h2.trans ((List.suffix_append n.data _).trans
    (List.suffix_append "Service '".data _))).isInfix

/-- The per-service loop of the batch operations attempts every name:
the succeeded and failed lists together are a permutation of the input. -/
theorem batchLoop_perm (step : MState → String → OpResult) :
    ∀ (names : List String) (ms : MState),
      ((batchLoop step ms names).2.1 ++ (batchLoop step ms names).2.2).Perm names
  | [], _ => by simp [batchLoop]
  | n :: rest, ms => by
    have ih := batchLoop_perm step rest (step ms n).ms
    by_cases h : (step ms n).ok
    · simpa [batchLoop, h] using ih.cons n
    · simp only [batchLoop, h, Bool.false_eq_true, if_false]
      exact List.perm_middle.trans (ih.cons n)

/-! ## Claims -/

/-- C1: for every service whose configuration declares a (nonzero) port,
if the TCP probe of that port succeeds at query time, the status decision
`_is_service_running` returns true — for every manager footprint, i.e.
regardless of the presence or contents of the PID file and of the
persisted record. -/
theorem port_liveness_wins (w : World) (cfg : Config) (ms : MState)
    (n : String) (sc : ServiceConfig) (p : Nat)
    (hsc : getService cfg n = some sc) (hp : sc.port = some p)
    (hpos : 0 < p) (hopen : w.portOpen p = true) :
    isServiceRunning w cfg ms n = true :=
  running_of_portOpen hsc hp (Nat.pos_iff_ne_zero.mp hpos) hopen

def cw1 : World :=
  ⟨[], fun p => p == 8080, fun _ => none, 100, fun _ => 1, fun _ => none, fun _ => none⟩

def csc1 : ServiceConfig := ⟨"lobby", "node dist/index.js", some 8080, "/srv", "lobby", []⟩

def ccfg1 : Config := ⟨[("lobby", csc1)]⟩

def cms1 : MState := ⟨[("lobby", "notapid")], [], [], none, []⟩

theorem port_liveness_wins_witness :
    isServiceRunning cw1 ccfg1 cms1 "lobby" = true :=
  port_liveness_wins cw1 ccfg1 cms1 "lobby" csc1 8080 (by decide) (by decide)
    (by decide) (by decide)

def csc2c : ServiceConfig := ⟨"gamesvc", "run gamesvc", some 9100, "/game", "d", []⟩

def ccfg2c : Config := ⟨[("gamesvc", csc2c)]⟩

def cw2c : World :=
  ⟨[⟨88, ["serve", "app"]⟩], fun p => p == 9100, fun _ => none, 100,
    fun _ => 1, fun _ => none, fun _ => none⟩

def cms2c : MState := ⟨[], [], [], none, []⟩

/-- C2 counterexample: no persisted record, no PID file, and process 88
(command line `serve app`) matches the service's command pattern via the
broad scan's `'serve'` heuristic — yet `get_service_status` reports
running with pid `None`, not the discovered pid 88: the netstat result is
empty and `_get_service_pid`'s own fallback uses different patterns
(`'serve' and '3000'`, ...) that this process does not match, so the
status's pid is `None` even though the scan found a match. -/
theorem orphan_scan_pid_none_cex :
    alookup cms2c.state "gamesvc" = none ∧
    alookup cms2c.pidFiles "gamesvc" = none ∧
    checkChildProcesses cw2c "gamesvc" (some 9100) = true ∧
    (getServiceStatus cw2c ccfg2c cms2c "gamesvc").status = "running" ∧
    (getServiceStatus cw2c ccfg2c cms2c "gamesvc").pid = none := by
  decide

/-- C2 (amended): orphan adoption.  For a known service with no persisted
record and no PID file, if the broad process scan finds a live process
matching the service's command pattern (`_check_child_processes` succeeds,
which presupposes the configured port answers), then `get_service_status`
reports running; the pid it reports is the one the port-based discovery of
`_get_service_pid` yields — the netstat result for the configured port
when available, otherwise the first process matching `_get_service_pid`'s
own (different) fallback patterns — and is `None` when both discovery
channels miss, even though the scan matched. -/
theorem orphan_scan_running_discovery_pid (w : World) (cfg : Config) (ms : MState)
    (n : String) (sc : ServiceConfig) (p : Nat)
    (hsc : getService cfg n = some sc) (hp : sc.port = some p)
    (hrec : alookup ms.state n = none) (hpf : alookup ms.pidFiles n = none)
    (hscan : checkChildProcesses w n sc.port = true) :
    (getServiceStatus w cfg ms n).status = "running" ∧
    (getServiceStatus w cfg ms n).pid =
      (match w.netstatPid p with
       | some q => some q
       | none => broadScanPid w n) := by
  rw [hp] at hscan
  obtain ⟨hpz, hopen⟩ := checkChild_some_true hscan
  have hrun : isServiceRunning w cfg ms n = true := running_of_portOpen hsc hp hpz hopen
  have hpid : getServicePid w cfg ms n =
      (match w.netstatPid p with
       | some q => some q
       | none => broadScanPid w n) := by
    unfold getServicePid
    rw [hrun, hsc]
    simp [hpf, hp, hpz]
  unfold getServiceStatus
  rw [hsc]
  simp [hrun, hrec, hpid]

def cw2 : World :=
  ⟨[⟨321, ["node", "server.js", "dealer"]⟩], fun p => p == 9090,
    fun p => if p == 9090 then some 321 else none, 100, fun _ => 1,
    fun _ => none, fun _ => none⟩

def csc2 : ServiceConfig := ⟨"dealer", "node server.js", some 9090, "/srv", "dealer", []⟩

def ccfg2 : Config := ⟨[("dealer", csc2)]⟩

def cms2 : MState := ⟨[], [], [], none, []⟩

theorem orphan_scan_running_discovery_pid_witness :
    (getServiceStatus cw2 ccfg2 cms2 "dealer").status = "running" ∧
    (getServiceStatus cw2 ccfg2 cms2 "dealer").pid = some 321 := by
  have h := orphan_scan_running_discovery_pid cw2 ccfg2 cms2 "dealer" csc2 9090
    (by decide) (by decide) (by decide) (by decide) (by decide)
  exact ⟨h.1, h.2.trans (by decide)⟩

/-- C3: `start_service` on a service the status algorithm currently
considers running fails with the already-running message and leaves the
manager footprint exactly as it was — in particular no `Popen` call is
made (the spawn-call log is unchanged) and no PID file, state record or
log file is touched. -/
theorem start_already_running_rejected (w : World) (cfg : Config) (ms : MState)
    (n : String) (hrun : isServiceRunning w cfg ms n = true) :
    startService w cfg ms n = ⟨false, "Service '" ++ n ++ "' is already running", ms⟩ := by
  obtain ⟨sc, hsc⟩ := Option.isSome_iff_exists.mp (getService_isSome_of_running hrun)
  unfold startService
  rw [hsc]
  simp [hrun]

def cw3 : World :=
  ⟨[], fun p => p == 7070, fun _ => none, 100, fun _ => 1, fun _ => none, fun _ => none⟩

def csc3 : ServiceConfig := ⟨"monitor", "python monitor.py", some 7070, "/app", "monitor", []⟩

def ccfg3 : Config := ⟨[("monitor", csc3)]⟩

def cms3 : MState := ⟨[], [], [], none, []⟩

theorem start_already_running_rejected_witness :
    startService cw3 ccfg3 cms3 "monitor" =
      ⟨false, "Service 'monitor' is already running", cms3⟩ :=
  (start_already_running_rejected cw3 ccfg3 cms3 "monitor" (by decide)).trans (by decide)

/-- C4: stale-PID reconciliation.  For a service with a PID file whose pid
does not exist in the OS process table and whose configured port is not
open, the status decision is false and `get_service_status` reports
stopped, whatever the persisted record says (the footprint's state mapping
is arbitrary). -/
theorem stale_pid_reconciled_stopped (w : World) (cfg : Config) (ms : MState)
    (n : String) (sc : ServiceConfig) (p : Nat) (content : String) (pid : Nat)
    (hsc : getService cfg n = some sc) (hp : sc.port = some p)
    (hclosed : w.portOpen p = false)
    (hpf : alookup ms.pidFiles n = some content)
    (hparse : parsePid content = some pid)
    (hdead : pidExists w pid = false) :
    isServiceRunning w cfg ms n = false ∧
    (getServiceStatus w cfg ms n).status = "stopped" := by
  have hrun : isServiceRunning w cfg ms n = false := by
    unfold isServiceRunning
    rw [hsc]
    have hcc : checkChildProcesses w n (some p) = false := by
      unfold checkChildProcesses
      by_cases h0 : p = 0 <;> simp [h0, hclosed]
    simp [hp, hclosed, hpf, hparse, hdead, hcc]
  refine ⟨hrun, ?_⟩
  unfold getServiceStatus
  rw [hsc]
  simp [hrun]

def cw4 : World :=
  ⟨[], fun _ => false, fun _ => none, 100, fun _ => 1, fun _ => none, fun _ => none⟩

def csc4 : ServiceConfig := ⟨"frontend", "serve -s build", some 3000, "/web", "frontend", []⟩

def ccfg4 : Config := ⟨[("frontend", csc4)]⟩

def cms4 : MState :=
  ⟨[("frontend", "4242")], [], [("frontend", ⟨4242, 10, "running", none, csc4⟩)],
    some [("frontend", ⟨4242, 10, "running", none, csc4⟩)], []⟩

theorem stale_pid_reconciled_stopped_witness :
    isServiceRunning cw4 ccfg4 cms4 "frontend" = false ∧
    (getServiceStatus cw4 ccfg4 cms4 "frontend").status = "stopped" :=
  stale_pid_reconciled_stopped cw4 ccfg4 cms4 "frontend" csc4 3000 "4242" 4242
    (by decide) (by decide) (by decide) (by decide) (by decide) (by decide)

/-- C5 (amended): `restart_service` runs stop first and classifies a stop
failure by the `"not running"` marker in its message.  If stop fails and
its message lacks the marker, restart returns the wrapped stop failure
and start is never attempted: the spawn-call log is exactly the initial
one.  If stop fails with the NotRunning message (which always carries the
marker, see `notRunning_msg_contains`), the failure is tolerated and
restart's outcome is exactly that of the subsequent start on the
post-stop footprint. -/
theorem restart_stop_failure_policy (w : World) (cfg : Config) (ms : MState) (n : String) :
    ((stopService w cfg ms n).ok = false →
      strContains (stopService w cfg ms n).msg "not running" = false →
      restartService w cfg ms n =
        ⟨false, "Failed to stop service before restart: " ++ (stopService w cfg ms n).msg,
          (stopService w cfg ms n).ms⟩ ∧
      (restartService w cfg ms n).ms.spawnCalls = ms.spawnCalls) ∧
    ((stopService w cfg ms n).msg = "Service '" ++ n ++ "' is not running" →
      restartService w cfg ms n =
        (if (startService w cfg (stopService w cfg ms n).ms n).ok then
          ⟨true, "Service '" ++ n ++ "' restarted successfully",
            (startService w cfg (stopService w cfg ms n).ms n).ms⟩
        else
          ⟨false, "Failed to start service after restart: " ++
              (startService w cfg (stopService w cfg ms n).ms n).msg,
            (startService w cfg (stopService w cfg ms n).ms n).ms⟩)) := by
  constructor
  · intro hok hmsg
    have habort : restartService w cfg ms n =
        ⟨false, "Failed to stop service before restart: " ++ (stopService w cfg ms n).msg,
          (stopService w cfg ms n).ms⟩ := by
      unfold restartService
      simp [hok, hmsg]
    exact ⟨habort, by rw [habort]; exact stopService_spawnCalls w cfg ms n⟩
  · intro hmsg
    have hc : strContains (stopService w cfg ms n).msg "not running" = true := by
      rw [hmsg]; exact notRunning_msg_contains n
    unfold restartService
    by_cases hst : (startService w cfg (stopService w cfg ms n).ms n).ok <;> simp [hc, hst]

def nm5c : String := "db not running watcher"

def csc5c : ServiceConfig := ⟨nm5c, "run me", some 8085, "/", "d", []⟩

def ccfg5c : Config := ⟨[(nm5c, csc5c)]⟩

def cms5c : MState := ⟨[], [], [], none, []⟩

def cw5c : World :=
  ⟨[], fun p => p == 8085, fun _ => none, 100, fun _ => 1, fun _ => none, fun _ => none⟩

/-- C5 counterexample: `restart_service` classifies the stop failure by
the substring `"not running"` in its message, not by its reason.  For a
service whose name contains that substring, a stop that fails with the
could-not-find-PID reason (the status algorithm says running here, so the
reason is not NotRunning) is nevertheless tolerated: restart goes on to
attempt start (whose already-running failure it returns) instead of
returning the stop failure without attempting start. -/
theorem restart_marker_name_cex :
    (stopService cw5c ccfg5c cms5c nm5c).ok = false ∧
    (stopService cw5c ccfg5c cms5c nm5c).msg =
      "Could not find PID for service 'db not running watcher'" ∧
    isServiceRunning cw5c ccfg5c cms5c nm5c = true ∧
    restartService cw5c ccfg5c cms5c nm5c =
      ⟨false,
        "Failed to start service after restart: Service 'db not running watcher' is already running",
        cms5c⟩ := by
  decide

def csc5 : ServiceConfig := ⟨"svc5", "run me", some 8080, "/", "d", []⟩

def ccfg5 : Config := ⟨[("svc5", csc5)]⟩

def cms5 : MState := ⟨[], [], [], none, []⟩

def cw5a : World :=
  ⟨[], fun p => p == 8080, fun _ => none, 100, fun _ => 1, fun _ => none, fun _ => none⟩

def csc5b : ServiceConfig := ⟨"svc5b", "run me", some 8081, "/", "d", []⟩

def ccfg5b : Config := ⟨[("svc5b", csc5b)]⟩

def cms5b : MState := ⟨[], [], [], none, []⟩

def cw5b : World :=
  ⟨[], fun _ => false, fun _ => none, 100, fun _ => 9, fun _ => none, fun _ => none⟩

theorem restart_stop_failure_policy_witness :
    restartService cw5a ccfg5 cms5 "svc5" =
      ⟨false, "Failed to stop service before restart: Could not find PID for service 'svc5'",
        cms5⟩ ∧
    (restartService cw5b ccfg5b cms5b "svc5b").ok = true := by
  constructor
  · have h := (restart_stop_failure_policy cw5a ccfg5 cms5 "svc5").1 (by decide) (by decide)
    exact h.1.trans (by decide)
  · have h := (restart_stop_failure_policy cw5b ccfg5b cms5b "svc5b").2 (by decide)
    rw [h]
    decide

def csc6 : ServiceConfig := ⟨"lobby6", "node x.js", some 8086, "/srv", "d", []⟩

def ccfg6 : Config := ⟨[("lobby6", csc6)]⟩

def cw6 : World :=
  ⟨[], fun p => p == 8086, fun p => if p == 8086 then some 777 else none, 100,
    fun _ => 1, fun _ => none, fun _ => none⟩

def cms6 : MState :=
  ⟨[], [], [("lobby6", ⟨777, 10, "running", none, csc6⟩)], none, []⟩

/-- C6 counterexample: a stop that returns success without updating or
saving the record.  The service counts as running (port open), the pid is
resolved through the netstat scan, but that pid is dead, so
`psutil.Process(pid)` raises `NoSuchProcess` and the handler returns
success after removing the PID file only: the persisted record still says
`running` and nothing was saved, contradicting the claim that every
successful stop updates and durably saves the record. -/
theorem stop_success_skips_record_update_cex :
    (stopService cw6 ccfg6 cms6 "lobby6").ok = true ∧
    ((stopService cw6 ccfg6 cms6 "lobby6").ms.state.map (fun p => (p.1, p.2.status))) =
      [("lobby6", "running")] ∧
    (stopService cw6 ccfg6 cms6 "lobby6").ms.savedState = none := by
  decide

/-- C6 amended: on every stop that succeeds through the normal
termination path (the resolved pid is nonzero and alive and terminating it
raises nothing), if a persisted record exists for the service, that record
is updated to status stopped with the stop timestamp, the updated mapping
is saved before success is returned, and the PID file is absent
afterwards; the stop timestamp is ≥ the record's start timestamp whenever
the clock has not gone backwards since the start.  (In the
already-gone `NoSuchProcess` path, and when no record exists, the code
returns success without touching the record — see the counterexample.) -/
theorem stop_success_normal_path_persists (w : World) (cfg : Config) (ms : MState)
    (n : String) (pid : Nat) (r : SRecord)
    (hrun : isServiceRunning w cfg ms n = true)
    (hpid : getServicePid w cfg ms n = some pid) (hpz : pid ≠ 0)
    (halive : pidExists w pid = true) (hterm : w.termError pid = none)
    (hrec : alookup ms.state n = some r) (hclock : r.started_at ≤ w.now) :
    (stopService w cfg ms n).ok = true ∧
    alookup (stopService w cfg ms n).ms.state n =
      some { r with status := "stopped", stopped_at := some w.now } ∧
    (stopService w cfg ms n).ms.savedState = some (stopService w cfg ms n).ms.state ∧
    alookup (stopService w cfg ms n).ms.pidFiles n = none ∧
    r.started_at ≤ w.now := by
  have heq : stopService w cfg ms n =
      ⟨true, "Service '" ++ n ++ "' stopped successfully",
        { pidFiles := aerase ms.pidFiles n, logFiles := ms.logFiles,
          state := aset ms.state n { r with status := "stopped", stopped_at := some w.now },
          savedState :=
            some (aset ms.state n { r with status := "stopped", stopped_at := some w.now }),
          spawnCalls := ms.spawnCalls }⟩ := by
    unfold stopService
    simp [hrun, hpid, hpz, halive, hterm, hrec]
  rw [heq]
  exact ⟨rfl, alookup_aset_self _ _ _, rfl, alookup_aerase_self _ _, hclock⟩

def csc6w : ServiceConfig := ⟨"svc6", "sleep 10", some 8087, "/tmp", "d", []⟩

def ccfg6w : Config := ⟨[("svc6", csc6w)]⟩

def cw6w : World :=
  ⟨[⟨101, ["sleep", "10"]⟩], fun p => p == 8087,
    fun p => if p == 8087 then some 101 else none, 100, fun _ => 1,
    fun _ => none, fun _ => none⟩

def cms6w : MState :=
  ⟨[("svc6", "101")], [], [("svc6", ⟨101, 10, "running", none, csc6w⟩)], none, []⟩

theorem stop_success_normal_path_persists_witness :
    (stopService cw6w ccfg6w cms6w "svc6").ok = true ∧
    alookup (stopService cw6w ccfg6w cms6w "svc6").ms.state "svc6" =
      some ⟨101, 10, "stopped", some 100, csc6w⟩ ∧
    (stopService cw6w ccfg6w cms6w "svc6").ms.savedState =
      some (stopService cw6w ccfg6w cms6w "svc6").ms.state ∧
    alookup (stopService cw6w ccfg6w cms6w "svc6").ms.pidFiles "svc6" = none ∧
    (10 : Nat) ≤ 100 :=
  stop_success_normal_path_persists cw6w ccfg6w cms6w "svc6" 101
    ⟨101, 10, "running", none, csc6w⟩ (by decide) (by decide) (by decide)
    (by decide) (by decide) (by decide) (by decide)

/-- C7: the batch operations run the per-service loop over every
configured service in order, threading the manager footprint, so one
failure never prevents the rest from being attempted: the succeeded and
failed name lists together are a permutation of the full configured list
(for stop-all and start-all alike).  And when some but not all services
fail, the aggregate result is the partial outcome whose message lists
exactly the succeeded names and exactly the failed names. -/
theorem batch_partial_outcome (w : World) (cfg : Config) (ms : MState) :
    ((batchLoop (stopService w cfg) ms (cfg.services.map (fun p => p.1))).2.1 ++
        (batchLoop (stopService w cfg) ms (cfg.services.map (fun p => p.1))).2.2).Perm
      (cfg.services.map (fun p => p.1)) ∧
    ((batchLoop (startService w cfg) ms (cfg.services.map (fun p => p.1))).2.1 ++
        (batchLoop (startService w cfg) ms (cfg.services.map (fun p => p.1))).2.2).Perm
      (cfg.services.map (fun p => p.1)) ∧
    ((batchLoop (stopService w cfg) ms (cfg.services.map (fun p => p.1))).2.2 ≠ [] →
      (batchLoop (stopService w cfg) ms (cfg.services.map (fun p => p.1))).2.1 ≠ [] →
      stopAllServices w cfg ms =
        ⟨false,
          "Partially stopped: " ++
            String.intercalate ", "
              (batchLoop (stopService w cfg) ms (cfg.services.map (fun p => p.1))).2.1 ++
            ". Failed: " ++
            String.intercalate ", "
              (batchLoop (stopService w cfg) ms (cfg.services.map (fun p => p.1))).2.2,
          (batchLoop (stopService w cfg) ms (cfg.services.map (fun p => p.1))).1⟩) ∧
    ((batchLoop (startService w cfg) ms (cfg.services.map (fun p => p.1))).2.2 ≠ [] →
      (batchLoop (startService w cfg) ms (cfg.services.map (fun p => p.1))).2.1 ≠ [] →
      startAllServices w cfg ms =
        ⟨false,
          "Partially started: " ++
            String.intercalate ", "
              (batchLoop (startService w cfg) ms (cfg.services.map (fun p => p.1))).2.1 ++
            ". Failed: " ++
            String.intercalate ", "
              (batchLoop (startService w cfg) ms (cfg.services.map (fun p => p.1))).2.2,
          (batchLoop (startService w cfg) ms (cfg.services.map (fun p => p.1))).1⟩) := by
  refine ⟨batchLoop_perm _ _ _, batchLoop_perm _ _ _, ?_, ?_⟩
  · intro hbad hok
    unfold stopAllServices
    simp [List.isEmpty_iff, hbad, hok]
  · intro hbad hok
    unfold startAllServices
    simp [List.isEmpty_iff, hbad, hok]

def csc7a : ServiceConfig := ⟨"s1", "cmd a", some 11, "/", "d", []⟩

def csc7b : ServiceConfig := ⟨"s2", "cmd b", some 12, "/", "d", []⟩

def csc7c : ServiceConfig := ⟨"s3", "cmd c", some 13, "/", "d", []⟩

def csc7d : ServiceConfig := ⟨"s4", "cmd d", some 14, "/", "d", []⟩

def ccfg7 : Config :=
  ⟨[("s1", csc7a), ("s2", csc7b), ("s3", csc7c), ("s4", csc7d)]⟩

def cw7 : World :=
  ⟨[⟨101, ["x"]⟩, ⟨102, ["x"]⟩, ⟨103, ["x"]⟩],
    fun p => p == 11 || p == 12 || p == 13, fun _ => none, 100,
    fun k => 200 + k, fun _ => none, fun _ => none⟩

def cms7 : MState :=
  ⟨[("s1", "101"), ("s2", "102"), ("s3", "103")], [], [], none, []⟩

theorem batch_partial_outcome_witness :
    (stopAllServices cw7 ccfg7 cms7).msg =
      "Partially stopped: s1, s2, s3. Failed: s4" ∧
    (startAllServices cw7 ccfg7 cms7).msg =
      "Partially started: s4. Failed: s1, s2, s3" := by
  have h := batch_partial_outcome cw7 ccfg7 cms7
  constructor
  · rw [h.2.2.1 (by decide) (by decide)]
    decide
  · rw [h.2.2.2 (by decide) (by decide)]
    decide

def cms8 : MState := ⟨[], [("svc8", ["only line\n"])], [], none, []⟩

/-- C8 counterexample: for a 1-line log file, requesting the last `K = 0`
lines (`K < N = 1`) does not return exactly the last 0 lines (the empty
string): Python's slice `all_lines[-0:]` is the whole list, so the whole
file comes back. -/
theorem logs_zero_request_cex :
    getServiceLogs cms8 "svc8" 0 = "only line\n" ∧ ("only line\n" : String) ≠ "" := by
  decide

/-- C8 amended: for a log file with lines `ls`, requesting the last
`K ≥ 1` lines returns exactly the last `min K N` lines in original order
(so for `K < N` exactly the last `K`, and for `K ≥ N` the whole file);
requesting `K = 0` returns the whole file (Python slice `[-0:]`); and a
missing log file yields the distinct no-log-file message instead of an
error. -/
theorem logs_tail_contract (ms : MState) (n : String) (K : Nat) (ls : List String) :
    (alookup ms.logFiles n = some ls →
      (1 ≤ K → getServiceLogs ms n K = String.join (ls.drop (ls.length - K))) ∧
      (ls.length ≤ K → getServiceLogs ms n K = String.join ls) ∧
      (K = 0 → getServiceLogs ms n K = String.join ls)) ∧
    (alookup ms.logFiles n = none →
      getServiceLogs ms n K = "No log file found for service '" ++ n ++ "'") := by
  constructor
  · intro hls
    refine ⟨?_, ?_, ?_⟩
    · intro hK
      unfold getServiceLogs
      rw [hls]
      have hz : (K == 0) = false := by simp; omega
      simp [hz]
    · intro hN
      unfold getServiceLogs
      rw [hls]
      by_cases hK0 : K = 0
      · simp [hK0]
      · have hz : (K == 0) = false := by simp [hK0]
        simp [hz, Nat.sub_eq_zero_of_le hN]
    · intro h0
      unfold getServiceLogs
      rw [hls]
      simp [h0]
  · intro hnone
    unfold getServiceLogs
    rw [hnone]

def lines8w : List String := ["Line 1\n", "Line 2\n", "Line 3\n"]

def cms8w : MState := ⟨[], [("svc8w", lines8w)], [], none, []⟩

theorem logs_tail_contract_witness :
    getServiceLogs cms8w "svc8w" 2 = "Line 2\nLine 3\n" ∧
    getServiceLogs cms8w "svc8w" 5 = "Line 1\nLine 2\nLine 3\n" ∧
    getServiceLogs cms8w "absent" 5 = "No log file found for service 'absent'" := by
  refine ⟨?_, ?_, ?_⟩
  · have h := ((logs_tail_contract cms8w "svc8w" 2 lines8w).1 (by decide)).1 (by decide)
    exact h.trans (by decide)
  · have h := ((logs_tail_contract cms8w "svc8w" 5 lines8w).1 (by decide)).2.1 (by decide)
    exact h.trans (by decide)
  · exact ((logs_tail_contract cms8w "absent" 5 []).2 (by decide)).trans (by decide)

/-- C9: `_load_state` never fails fatally: an absent state file, an
unreadable/unparseable one, and an empty one (YAML null) all load as the
empty mapping. -/
theorem load_state_never_fatal :
    loadState .absent = [] ∧ loadState .unreadable = [] ∧
    loadState (.parsed none) = [] :=
  ⟨rfl, rfl, rfl⟩

/-- C10 (implicit): the last-resort broad scan `_check_child_processes`
reports running only when the configured port is currently open — with no
port it is false, and with a port whose TCP probe fails it is false, for
every service name and every process table.  A process matching only the
command pattern, with no open port, never makes this fallback report
running. -/
theorem child_scan_requires_open_port (w : World) (n : String) :
    checkChildProcesses w n none = false ∧
    ∀ p : Nat, w.portOpen p = false → checkChildProcesses w n (some p) = false := by
  refine ⟨rfl, ?_⟩
  intro p hp
  unfold checkChildProcesses
  by_cases h0 : p = 0 <;> simp [h0, hp]

def cw10 : World :=
  ⟨[⟨55, ["node", "serve", "9999"]⟩], fun _ => false, fun _ => none, 100,
    fun _ => 1, fun _ => none, fun _ => none⟩

theorem child_scan_requires_open_port_witness :
    checkChildProcesses cw10 "svc10" none = false ∧
    checkChildProcesses cw10 "svc10" (some 9999) = false :=
  ⟨(child_scan_requires_open_port cw10 "svc10").1,
    (child_scan_requires_open_port cw10 "svc10").2 9999 (by decide)⟩

end Cbhands
